import Mathlib

/-!
# Verification of the Savant REST relay against its specification

Shallow embedding of `savant_relay.py` and of the Home-Assistant
integration files (`custom_components/savant_control/media_player.py`,
`light.py`, `savant_client.py`) in Lean 4, together with proofs settling
the listed claims about the system.

Modelling conventions:
* Python dicts are modelled as insertion-ordered association lists
  (`List (String × _)`); `d[k] = v` is `assocSet`, `d.get(k)` is `assocGet`.
* JSON values are the inductive `Json` below; Python floats are modelled
  as rationals `ℚ` (every numeric computation a claim mentions is exact).
* Wall-clock time (`time.time()`) is an explicit `now : ℚ` parameter.
* I/O (sqlite queries, the Lutron socket, UDP sends, the syslog stream)
  is modelled by explicit inputs: a query is an `Except String _` value
  ( `.error` = the call raised), a UDP send is an `Except String Unit`.
* Two models of `StateCache` are given: a value-level model (`StateCache`,
  used for claims about cache *contents*) and a heap model with explicit
  Python object identity (`Heap`/`HCache`, used for the aliasing claim
  about defensive copies).
-/

namespace Savant

/-- JSON-like values exchanged by the relay (Python dict/list/str/int/float/bool).
Floats are modelled as rationals. -/
inductive Json where
  | str (s : String)
  | int (n : Int)
  | rat (q : ℚ)
  | bool (b : Bool)
  | null
  | arr (xs : List Json)
  | obj (fields : List (String × Json))

/-- Python dict with string keys, as insertion-ordered association list. -/
abbrev Dict := List (String × Json)

/-- `d.get(k)` on an association list. -/
def assocGet {κ α : Type} [DecidableEq κ] (d : List (κ × α)) (k : κ) : Option α :=
  match d with
  | [] => none
  | (k', v) :: rest => if k' = k then some v else assocGet rest k

/-- `d[k] = v` on an association list: overwrite in place if the key exists
(keeping insertion order, as Python dicts do), else append. -/
def assocSet {κ α : Type} [DecidableEq κ] (d : List (κ × α)) (k : κ) (v : α) :
    List (κ × α) :=
  match d with
  | [] => [(k, v)]
  | (k', v') :: rest =>
      if k' = k then (k, v) :: rest else (k', v') :: assocSet rest k v

/-- Fuel-bounded structural splitter over character lists (so that concrete
inputs compute by kernel reduction); models Python `str.split(sep)` for a
non-empty separator.  The fuel is always called with more than the input
length, so the fuel-exhausted case is unreachable. -/
def splitOnFuel (sep : List Char) : Nat → List Char → List Char → List (List Char)
  | 0, l, acc => [acc.reverse ++ l]
  | _ + 1, [], acc => [acc.reverse]
  | n + 1, c :: rest, acc =>
      if sep.isPrefixOf (c :: rest) then
        acc.reverse :: splitOnFuel sep n (List.drop sep.length (c :: rest)) []
      else splitOnFuel sep n rest (c :: acc)

/-- Python `s.split(sep)` (non-empty `sep`). -/
def pySplit (s sep : String) : List String :=
  (splitOnFuel sep.data (s.data.length + 1) s.data []).map String.mk

/-- Python `sep.join(parts)`. -/
def pyJoin (sep : String) : List String → String
  | [] => ""
  | [x] => x
  | x :: rest => x ++ sep ++ pyJoin sep rest

/-- Python `s.replace(pattern, replacement)` (non-empty `pattern`). -/
def pyReplace (s pattern replacement : String) : String :=
  pyJoin replacement (pySplit s pattern)

/-- Python `s.lower()` (ASCII). -/
def pyLower (s : String) : String :=
  String.mk (s.data.map Char.toLower)

/-- Python `s.startswith(p)`. -/
def pyStartsWith (s p : String) : Bool :=
  p.data.isPrefixOf s.data

/-- Python `str.strip()` (strip ASCII whitespace from both ends). -/
def pyStrip (s : String) : String :=
  String.mk (((s.data.dropWhile Char.isWhitespace).reverse.dropWhile
      Char.isWhitespace).reverse)

/-- Python `str.strip(chars)` for a set of characters. -/
def pyStripChars (s : String) (chars : List Char) : String :=
  String.mk (((s.data.dropWhile (· ∈ chars)).reverse.dropWhile
      (· ∈ chars)).reverse)

/-- Python `str.isdigit()` restricted to ASCII digits. -/
def pyIsDigit (s : String) : Bool :=
  s ≠ "" && s.data.all Char.isDigit

/-- Python `int(s)` on a string: optional surrounding whitespace, optional
sign, at least one digit; `none` models a raised `ValueError`. -/
def pyInt? (s : String) : Option Int :=
  let t := pyStrip s
  let (sign, digits) :=
    match t.data with
    | '-' :: rest => ((-1 : Int), rest)
    | '+' :: rest => ((1 : Int), rest)
    | l => ((1 : Int), l)
  if digits ≠ [] && digits.all Char.isDigit then
    some (sign * (digits.foldl (fun acc c => acc * 10 + (c.toNat - '0'.toNat)) 0 : Nat))
  else none

/-- Python `float(s)` on a string, for plain decimal literals
`[sign] digits [. digits]`; `none` models a raised `ValueError`.
(Exponents/inf/nan, which never occur in the relay's inputs of interest,
are conservatively rejected.) -/
def pyFloat? (s : String) : Option ℚ :=
  let t := pyStrip s
  let (sign, body) :=
    match t.data with
    | '-' :: rest => ((-1 : ℚ), rest)
    | '+' :: rest => ((1 : ℚ), rest)
    | l => ((1 : ℚ), l)
  let intPart := body.takeWhile Char.isDigit
  let rest := body.drop intPart.length
  let digitsVal : List Char → Nat :=
    fun ds => ds.foldl (fun acc c => acc * 10 + (c.toNat - '0'.toNat)) 0
  match rest with
  | [] =>
      if intPart ≠ [] then some (sign * (digitsVal intPart : ℚ)) else none
  | '.' :: frac =>
      if (intPart ≠ [] ∨ frac ≠ []) ∧ frac.all Char.isDigit then
        some (sign * ((digitsVal intPart : ℚ) +
          (digitsVal frac : ℚ) / ((10 : ℚ) ^ frac.length)))
      else none
  | _ => none

/-- Python `int(q)` on a float: truncation toward zero.  On a rational
`q = num/den` (with `den > 0`) this is truncating integer division. -/
def pyTrunc (q : ℚ) : Int :=
  q.num.tdiv q.den

/-! ## StateCache (value-level model) — `savant_relay.py` lines 42–86

The lock serialises the operations; each operation is a pure function of
the cache contents, so the value-level model is a function per method.
`time.time()` is the explicit `now` argument. -/

structure StateCache where
  component_states : List (String × Dict)
  light_levels : List (String × Dict)
  zone_states : List (String × Dict)
  last_update : ℚ

/-- The cache at process start. -/
def StateCache.init : StateCache :=
  { component_states := [], light_levels := [], zone_states := [], last_update := 0 }

/-- `StateCache.update_component`. -/
def update_component (c : StateCache) (component_name : String) (states : Dict)
    (now : ℚ) : StateCache :=
  { c with component_states := assocSet c.component_states component_name states,
           last_update := now }

/-- `StateCache.update_light`. -/
def update_light (c : StateCache) (key : String) (data : Dict) (now : ℚ) :
    StateCache :=
  { c with light_levels := assocSet c.light_levels key data,
           last_update := now }

/-- `StateCache.update_zone_state`: bind the zone to `{}` if absent, then set
the key in the zone's inner dict. -/
def update_zone_state (c : StateCache) (zone key : String) (value : Json)
    (now : ℚ) : StateCache :=
  let inner := (assocGet c.zone_states zone).getD []
  { c with zone_states := assocSet c.zone_states zone (assocSet inner key value),
           last_update := now }

/-- `StateCache.get_zone_state` (value view). -/
def get_zone_state (c : StateCache) (zone : String) : Dict :=
  (assocGet c.zone_states zone).getD []

/-- `StateCache.get_all_zone_states` (value view of `dict(self.zone_states)`). -/
def get_all_zone_states (c : StateCache) : List (String × Dict) :=
  c.zone_states

/-- `StateCache.get_components` (value view of `dict(self.component_states)`). -/
def get_components (c : StateCache) : List (String × Dict) :=
  c.component_states

/-- `StateCache.get_lights` (value view of `dict(self.light_levels)`). -/
def get_lights (c : StateCache) : List (String × Dict) :=
  c.light_levels

/-! ## Volume scale conversion — `media_player.py`

`SavantMediaPlayer.update` (lines 245–253) converts a device volume value to
the Home-Assistant 0.0–1.0 level; `SavantMediaPlayer.set_volume_level`
(lines 335–356) converts back.  `volumeScale` is either `'percent'` or
`'dB'` (set by `handle_zones` in the relay). -/

inductive VolumeScale where
  | percent
  | dB

/-- `update()` fallback conversion of a component-state volume value:
`dB` scale: `max(0.0, min(1.0, (vol_val + 80) / 80.0))`;
`percent` scale: `max(0.0, min(1.0, vol_val / 100.0))`. -/
def volume_from_device (scale : VolumeScale) (vol_val : Int) : ℚ :=
  match scale with
  | .dB => max 0 (min 1 (((vol_val : ℚ) + 80) / 80))
  | .percent => max 0 (min 1 ((vol_val : ℚ) / 100))

/-- `set_volume_level()` conversion of a HA volume (0.0–1.0) to the device
value sent as `VolumeValue`: `int(-80 + volume * 80)` on the dB scale,
`int(volume * 100)` on the percent scale. -/
def set_volume_savant (scale : VolumeScale) (volume : ℚ) : Int :=
  match scale with
  | .dB => pyTrunc (-80 + volume * 80)
  | .percent => pyTrunc (volume * 100)

/-! ## Dimmer brightness conversion — `light.py` lines 104–125 -/

/-- Python 3 `round()` on an exactly-represented value:
round half to even. -/
def python3Round (q : ℚ) : Int :=
  if q - (⌊q⌋ : ℚ) < 1/2 then ⌊q⌋
  else if 1/2 < q - (⌊q⌋ : ℚ) then ⌊q⌋ + 1
  else if ⌊q⌋ % 2 = 0 then ⌊q⌋ else ⌊q⌋ + 1

/-- `SavantLight.turn_on`: `dimmer_level = round(brightness * 100 / 255)`
(HA brightness 0–255 to Savant dimmer level 0–100). -/
def dimmer_level_of_brightness (brightness : ℕ) : ℤ :=
  python3Round ((brightness : ℚ) * 100 / 255)

/-- Modelled from the spec: the inverse mapping from a device dimmer level
(0–100) back to HA brightness (0–255).  The code contains no explicit
inverse (the light platform only converts brightness → level in `turn_on`
and `turn_off`); spec §8 asserts monotonicity of the inverse mapping, so it
is modelled as the inverse scale conversion with the same rounding. -/
def brightness_of_level (level : ℕ) : ℤ :=
  python3Round ((level : ℚ) * 255 / 100)

/-! ## WebSocket framing — `savant_relay.py` lines 182–272 -/

/-- `struct.pack(">Q", n)`: eight big-endian bytes. -/
def pack64 (n : Nat) : List Nat :=
  [n / 256 ^ 7 % 256, n / 256 ^ 6 % 256, n / 256 ^ 5 % 256, n / 256 ^ 4 % 256,
   n / 256 ^ 3 % 256, n / 256 ^ 2 % 256, n / 256 % 256, n % 256]

/-- `WebSocketServer._send_frame`: FIN + opcode byte, then the payload
length in 7-bit / 16-bit / 64-bit form, then the (unmasked) payload. -/
def sendFrame (opcode : Nat) (data : List Nat) : List Nat :=
  let length := data.length
  if length < 126 then
    (0x80 ||| opcode) :: length :: data
  else if length < 65536 then
    (0x80 ||| opcode) :: 126 :: (length / 256) :: (length % 256) :: data
  else
    (0x80 ||| opcode) :: 127 :: (pack64 length ++ data)

/-- The XOR unmasking loop of `_handle_client`. -/
def unmaskBytes (payload mask : List Nat) : List Nat :=
  payload.enum.map (fun ic => ic.2 ^^^ mask.getD (ic.1 % 4) 0)

/-- The frame-header / extended-length / mask / payload logic of the
`_handle_client` read loop.  Input is the byte stream; the result is the
opcode and the (unmasked) payload.  `none` models the paths where
`struct.unpack` or the mask read raises / the connection drops before the
header completes; a truncated payload is returned short, as in the code
(`if not chunk: break`). -/
def handleFrame (bs : List Nat) : Option (Nat × List Nat) :=
  match bs with
  | b0 :: b1 :: rest =>
    let opcode := b0 &&& 0x0F
    let masked := (b1 &&& 0x80) != 0
    let plen0 := b1 &&& 0x7F
    let ext : Option (Nat × List Nat) :=
      if plen0 = 126 then
        match rest with
        | e0 :: e1 :: tail => some (e0 * 256 + e1, tail)
        | _ => none
      else if plen0 = 127 then
        match rest with
        | e0 :: e1 :: e2 :: e3 :: e4 :: e5 :: e6 :: e7 :: tail =>
            some (((((((e0 * 256 + e1) * 256 + e2) * 256 + e3) * 256 + e4) * 256
              + e5) * 256 + e6) * 256 + e7, tail)
        | _ => none
      else some (plen0, rest)
    match ext with
    | none => none
    | some (plen, rest2) =>
      if masked then
        match rest2 with
        | m0 :: m1 :: m2 :: m3 :: rest3 =>
            some (opcode, unmaskBytes (rest3.take plen) [m0, m1, m2, m3])
        | _ => none
      else some (opcode, rest2.take plen)
  | _ => none

/-! ## POST /command — `SavantRequestHandler.handle_command`, lines 1109–1181

The JSON body is modelled as `none` (body that fails `json.loads`) or a
`CommandBody`; field values are modelled as strings, which is the shape all
callers send and the only shape the claims concern.  The UDP send
(`sock.sendto`) is an `Except String Unit` input; the second component of
the result is the datagram handed to `sendto` (`none` = no send attempted). -/

structure CommandBody where
  fields : List (String × String)
  arguments : List (String × String)

/-- An HTTP response: status code and JSON body (for `send_error`, the error
message string). -/
structure Response where
  status : Nat
  body : Json

/-- `SOAP_TEMPLATE.format(...)` — the envelope with the six fields and the
rendered argument elements substituted. -/
def SOAP_render (zone component logical service variant command args : String) :
    String :=
  "<?xml version=\"1.0\" encoding=\"UTF-8\"?>\n<SOAP-ENV:Envelope xmlns:SOAP-ENV=\"http://www.w3.org/2003/05/soap-envelope\" xmlns:SOAP-ENC=\"http://www.w3.org/2003/05/soap-encoding\" xmlns:xsi=\"http://www.w3.org/2001/XMLSchema-instance\" xmlns:xsd=\"http://www.w3.org/2001/XMLSchema\" xmlns:wsdl=\"http://tempuri.org/wsdl.xsd\" xmlns:md=\"urn:rpm-metadatainterface\" xmlns:ctl=\"urn:rpm-controlinterface\" xmlns:rdm=\"urn:rpm-rdminterface\" xmlns:rpm=\"urn:rpm-common\" xmlns:sm=\"urn:rpm-stateManagementInterface\" xmlns:smrdm=\"urn:sm-rdminterface\" xmlns:snsr=\"urn:rpm-userSNSRInterface\" xmlns:sync=\"urn:rpm-syncinterface\"><SOAP-ENV:Body><ctl:serviceEventRequest><zoneString>"
    ++ zone ++ "</zoneString><componentString>" ++ component
    ++ "</componentString><logicalComponentString>" ++ logical
    ++ "</logicalComponentString><serviceString>" ++ service
    ++ "</serviceString><serviceVariantIDString>" ++ variant
    ++ "</serviceVariantIDString><commandString>" ++ command
    ++ "</commandString>" ++ args
    ++ "</ctl:serviceEventRequest></SOAP-ENV:Body></SOAP-ENV:Envelope>"

/-- The `args_xml` accumulation loop:
`'<arg name="%s" value="%s"/>'` per argument. -/
def args_xml_of (arguments : List (String × String)) : String :=
  arguments.foldl
    (fun acc nv => acc ++ "<arg name=\"" ++ nv.1 ++ "\" value=\"" ++ nv.2 ++ "\"/>")
    ""

/-- `handle_command`. -/
def handle_command (body : Option CommandBody) (send : Except String Unit) :
    Response × Option String :=
  match body with
  | none => (⟨400, .str "Invalid JSON"⟩, none)
  | some cmd =>
    let zone := (assocGet cmd.fields "zone").getD ""
    let component := (assocGet cmd.fields "component").getD ""
    let logical := (assocGet cmd.fields "logicalComponent").getD ""
    let service := (assocGet cmd.fields "service").getD ""
    let variant := (assocGet cmd.fields "serviceVariantID").getD "1"
    let command := (assocGet cmd.fields "command").getD ""
    if zone = "" ∨ component = "" ∨ logical = "" ∨ service = "" ∨ command = "" then
      (⟨400, .str "Missing required fields"⟩, none)
    else
      let soap := SOAP_render zone component logical service variant command
        (args_xml_of cmd.arguments)
      match send with
      | .error e => (⟨502, .str ("Send error: " ++ e)⟩, some soap)
      | .ok _ => (⟨200, .obj [("status", .str "ok")]⟩, some soap)

/-! ## GET endpoints — `SavantRequestHandler`, lines 777–1107

Each handler takes the StateCache before the request and returns the cache
after it together with the HTTP response.  Database queries are modelled by
an `Except String _` input (`.error` = `sqlite3` raised). -/

/-- `d.get(k, default)` for string values stored in a `Dict`. -/
def getStrOr (d : Dict) (k dflt : String) : String :=
  match assocGet d k with
  | some (.str s) => s
  | _ => dflt

/-- Render a dict-of-dicts as a JSON object. -/
def jsonOfDicts (d : List (String × Dict)) : Json :=
  .obj (d.map (fun kv => (kv.1, Json.obj kv.2)))

/-- Python `x or default` for an optional string (SQL NULL or `''` are falsy). -/
def pyOrStr (v : Option String) (dflt : String) : String :=
  match v with
  | some s => if s = "" then dflt else s
  | none => dflt

/-- Python `x or 0` for an optional integer (SQL NULL). -/
def pyOrInt (v : Option Int) (dflt : Int) : Int :=
  match v with
  | some n => if n = 0 then dflt else n
  | none => dflt

/-- A row of the `ServiceImplementationZonedService` query in `handle_zones`
(`alias IS NOT NULL` filtered by the query). -/
structure SvcRow where
  zone : String
  svcAlias : String
  component : String
  logicalComponent : String
  serviceVariantID : Int
  serviceType : String
  service : String

/-- A row of the volume-control query
(`serviceType IN ('SVC_SETTINGS_SURROUNDSOUND','SVC_SETTINGS_EQUALIZER')`). -/
structure VolRow where
  zone : String
  component : String
  logicalComponent : String
  serviceVariantID : Int
  serviceType : String

structure ZonesDb where
  rows : List SvcRow
  volume_rows : List VolRow

/-- The base volume-control info dict built from a volume row. -/
def volInfoDict (r : VolRow) : Dict :=
  [("component", .str r.component), ("logicalComponent", .str r.logicalComponent),
   ("serviceVariantID", .str (toString r.serviceVariantID)),
   ("serviceType", .str r.serviceType)]

/-- `zone_volume_control` construction: first row wins unless a later row is
`SVC_SETTINGS_SURROUNDSOUND`, which takes priority. -/
def buildZoneVolumeControl (volume_rows : List VolRow) : List (String × Dict) :=
  volume_rows.foldl
    (fun acc r =>
      match assocGet acc r.zone with
      | none => assocSet acc r.zone (volInfoDict r)
      | some _ =>
          if r.serviceType = "SVC_SETTINGS_SURROUNDSOUND" then
            assocSet acc r.zone (volInfoDict r)
          else acc)
    []

/-- One service entry of a zone's `services` list. -/
def svcJson (r : SvcRow) : Json :=
  .obj [("alias", .str r.svcAlias), ("type", .str r.serviceType),
        ("component", .str r.component),
        ("logicalComponent", .str r.logicalComponent),
        ("serviceVariantID", .str (toString r.serviceVariantID)),
        ("service", .str r.service)]

structure ZoneEntry where
  name : String
  services : List Json
  volumeControl : Json

/-- The `zones` dict construction loop of `handle_zones`. -/
def buildZones (rows : List SvcRow) : List (String × ZoneEntry) :=
  rows.foldl
    (fun acc r =>
      let entry := (assocGet acc r.zone).getD ⟨r.zone, [], .null⟩
      assocSet acc r.zone { entry with services := entry.services ++ [svcJson r] })
    []

/-- The state-key decoration of a volume-control dict (lines 885–913):
receiver-based (`SVC_SETTINGS_SURROUNDSOUND`, percent scale) vs audio-switch
(dB scale, output number parsed from the logical component). -/
def extendVolInfo (vi : Dict) : Dict :=
  let component := getStrOr vi "component" ""
  let logical := getStrOr vi "logicalComponent" ""
  if getStrOr vi "serviceType" "" = "SVC_SETTINGS_SURROUNDSOUND" then
    let v1 := assocSet vi "stateComponent" (.str component)
    let v2 := assocSet v1 "volumeStateKey" (.str "Volume_Current_Volume_MainZone")
    let v3 := assocSet v2 "muteStateKey" (.str "Mute_current_mute_Receiver")
    let v4 := assocSet v3 "powerStateKey" (.str "Power_current_power_Receiver")
    assocSet v4 "volumeScale" (.str "percent")
  else
    let parts := pySplit logical "_"
    let output_num :=
      if logical ≠ "" ∧ parts.length ≥ 2 ∧ pyIsDigit ((parts.getLast?).getD "") then
        (parts.getLast?).getD ""
      else "1"
    let v1 := assocSet vi "stateComponent" (.str component)
    let v2 := assocSet v1 "volumeStateKey" (.str ("Volume_current_volume_" ++ output_num))
    let v3 := assocSet v2 "muteStateKey" (.str ("Mute_current_mute_" ++ output_num))
    let v4 := assocSet v3 "powerStateKey" (.str "Power_current_power_status")
    let v5 := assocSet v4 "volumeScale" (.str "dB")
    assocSet v5 "outputNumber" (.str output_num)

def zoneEntryJson (e : ZoneEntry) : Json :=
  .obj [("name", .str e.name), ("services", .arr e.services),
        ("volumeControl", e.volumeControl)]

/-- `handle_zones` (lines 798–924): on a database error, the `except`
handler sends a 500 error response; otherwise the zone/service directory
with volume-control descriptors. -/
def handle_zones (db : Except String ZonesDb) (c : StateCache) :
    StateCache × Response :=
  match db with
  | .error e => (c, ⟨500, .str e⟩)
  | .ok data =>
    let zone_volume_control := buildZoneVolumeControl data.volume_rows
    let zones := buildZones data.rows
    let zones2 := zone_volume_control.foldl
      (fun zs kv =>
        match assocGet zs kv.1 with
        | none => zs
        | some entry =>
            assocSet zs kv.1 { entry with volumeControl := .obj (extendVolInfo kv.2) })
      zones
    (c, ⟨200, .obj [("zones", .obj (zones2.map (fun kv => (kv.1, zoneEntryJson kv.2))))]⟩)

/-- `handle_zones_state` (lines 926–938): snapshot of the zone-state cache. -/
def handle_zones_state (c : StateCache) : StateCache × Response :=
  let zone_states := get_all_zone_states c
  (c, ⟨200, .obj [("zones", jsonOfDicts zone_states)]⟩)

/-- A row of the `LightEntities` join in `handle_lights` /
`handle_lights_status` (nullable columns as `Option`). -/
structure LightRow where
  zone : String
  light_name : String
  addresses : Option String
  entityType : String
  dimmerCommand : Option String
  fadeTime : Option Int
  delayTime : Option Int

/-- A row of the `SVC_ENV_LIGHTING` service query. -/
structure LightSvcRow where
  zone : String
  component : String
  logicalComponent : String
  serviceVariantID : Int

structure LightsDb where
  light_rows : List LightRow
  svc_rows : List LightSvcRow

/-- The zone → lighting-service map of `handle_lights`. -/
def buildZoneService (svc_rows : List LightSvcRow) : List (String × Dict) :=
  svc_rows.foldl
    (fun acc r =>
      assocSet acc r.zone
        [("component", .str r.component),
         ("logicalComponent", .str r.logicalComponent),
         ("serviceVariantID", .str (toString r.serviceVariantID))])
    []

/-- `addresses.split(',')[0] if addresses else ''`. -/
def firstAddress (addresses : Option String) : String :=
  match addresses with
  | some s => if s = "" then "" else (pySplit s ",").headD ""
  | none => ""

/-- One entry of the `lights` list of `handle_lights`. -/
def lightJson (zone_service : List (String × Dict)) (r : LightRow) : Json :=
  let svc_info := (assocGet zone_service r.zone).getD []
  .obj [("zone", .str r.zone), ("name", .str r.light_name),
        ("address", .str (firstAddress r.addresses)),
        ("entityType", .str r.entityType),
        ("isDimmer", .bool (r.entityType == "Dimmer")),
        ("dimmerCommand", .str (pyOrStr r.dimmerCommand "DimmerSet")),
        ("fadeTime", .int (pyOrInt r.fadeTime 0)),
        ("delayTime", .int (pyOrInt r.delayTime 0)),
        ("component", .str (getStrOr svc_info "component" "Lutron")),
        ("logicalComponent", .str (getStrOr svc_info "logicalComponent" "Lighting_controller")),
        ("serviceVariantID", .str (getStrOr svc_info "serviceVariantID" "1")),
        ("service", .str "SVC_ENV_LIGHTING")]

/-- `handle_lights` (lines 940–1021): light entity directory; 500 on a
database error. -/
def handle_lights (db : Except String LightsDb) (c : StateCache) :
    StateCache × Response :=
  match db with
  | .error e => (c, ⟨500, .str e⟩)
  | .ok data =>
    let zone_service := buildZoneService data.svc_rows
    let lights := data.light_rows.map (lightJson zone_service)
    (c, ⟨200, .obj [("lights", .arr lights)]⟩)

/-- `LUTRON_PERSISTENT` (line 33): statically `False`. -/
def LUTRON_PERSISTENT : Bool := false

/-- `("%s_%s" % (zone, name)).replace(' ', '_').lower()`. -/
def pyKeyOf (zone name : String) : String :=
  pyLower (pyReplace (zone ++ "_" ++ name) " " "_")

/-- The per-light status dict written by `handle_lights_status`. -/
def lightStatusData (addr zone name : String) (level : ℚ) : Dict :=
  [("address", .str addr), ("zone", .str zone), ("name", .str name),
   ("level", .rat level), ("is_on", .bool (decide (0 < level)))]

/-- A row of the address query used by `handle_lights_status` and the
Lutron threads. -/
structure LightAddrRow where
  addresses : Option String
  zone : String
  name : String

/-- `handle_lights_status` (lines 1023–1085).  With `LUTRON_PERSISTENT =
False` the cached branch is dead: the handler queries the database and the
Lutron controller (`lutronLevels` models the result of
`query_lutron_levels`, default level 0), then, for every addressed light,
builds the status dict, stores it in `status`, and writes it into the
StateCache with `update_light`. -/
def handle_lights_status (db : Except String (List LightAddrRow))
    (lutronLevels : List (String × ℚ)) (now : ℚ) (c : StateCache) :
    StateCache × Response :=
  if LUTRON_PERSISTENT && !(get_lights c).isEmpty then
    (c, ⟨200, .obj [("lights", jsonOfDicts (get_lights c))]⟩)
  else
    match db with
    | .error e => (c, ⟨500, .str e⟩)
    | .ok rows =>
      let address_map := rows.foldl
        (fun (acc : List (String × String × String)) r =>
          match r.addresses with
          | some s =>
              if s ≠ "" then
                assocSet acc ((pySplit s ",").headD "") (r.zone, r.name)
              else acc
          | none => acc)
        []
      let final := address_map.foldl
        (fun (acc : List (String × Dict) × StateCache) kv =>
          let addr := kv.1
          let key := pyKeyOf kv.2.1 kv.2.2
          let level := (assocGet lutronLevels addr).getD 0
          let data := lightStatusData addr kv.2.1 kv.2.2 level
          (assocSet acc.1 key data, update_light acc.2 key data now))
        ([], c)
      (final.2, ⟨200, .obj [("lights", jsonOfDicts final.1)]⟩)

/-- A status file, as its parsed `States` dict
(`parse_gnustep_plist` output). -/
structure PlistFile where
  filename : String
  states : Dict

/-- The non-state-key filter of `load_plist_to_cache` (lines 419–424). -/
def filteredStates (states : Dict) : Dict :=
  states.filter
    (fun kv =>
      !(pyStartsWith kv.1 "SavantHost" || kv.1 == "login" || kv.1 == "password" ||
        kv.1 == "ComponentProfileVersion" || kv.1 == "Version"))

/-- `load_plist_to_cache` (lines 412–428): strip the extension for the
component name, filter bookkeeping keys, and store if anything remains. -/
def load_plist_to_cache (f : PlistFile) (now : ℚ) (c : StateCache) : StateCache :=
  let component_name := pyReplace f.filename ".avc.plist" ""
  let filtered := filteredStates f.states
  if !filtered.isEmpty then update_component c component_name filtered now else c

/-- `handle_state` (lines 1087–1107): snapshot of the component cache; an
empty cache is first backfilled from the status files. -/
def handle_state (files : List PlistFile) (now : ℚ) (c : StateCache) :
    StateCache × Response :=
  let components := get_components c
  if components.isEmpty then
    let c2 := files.foldl (fun acc f => load_plist_to_cache f now acc) c
    (c2, ⟨200, .obj [("components", jsonOfDicts (get_components c2))]⟩)
  else
    (c, ⟨200, .obj [("components", jsonOfDicts components)]⟩)

/-! ## Home-Assistant client fallbacks — `savant_client.py` lines 105–134 -/

/-- `data.get(k)` on a JSON object. -/
def jsonGet (j : Json) (k : String) : Option Json :=
  match j with
  | .obj fields => assocGet fields k
  | _ => none

/-- `SavantClient.get_zones`: any request/parse failure is caught and an
empty dict returned; otherwise `data.get('zones', {})`. -/
def client_get_zones (resp : Except String Json) : Json :=
  match resp with
  | .error _ => .obj []
  | .ok data => (jsonGet data "zones").getD (.obj [])

/-- `SavantClient.get_lights`: any failure caught, empty list returned;
otherwise `data.get('lights', [])`. -/
def client_get_lights (resp : Except String Json) : Json :=
  match resp with
  | .error _ => .arr []
  | .ok data => (jsonGet data "lights").getD (.arr [])

/-! ## Syslog event tailer — `syslog_watcher_thread`, lines 523–639 -/

/-- The capture groups of the service-event pattern. -/
structure EventCaps where
  zone : String
  component : String
  logical : String
  variant : String
  service : String
  command : String
  args_str : String

/-- The argument-block parser (lines 558–567): strip surrounding braces,
split on `;`, keep `key = value` pairs with both sides stripped; a
`(null)` or empty argument string yields no arguments. -/
def pyParseArgs (args_str : String) : List (String × String) :=
  if args_str ≠ "" ∧ args_str ≠ "(null)" then
    let stripped := pyStripChars args_str ['\x7b', '\x7d']
    (pySplit stripped ";").foldl
      (fun acc pair =>
        let p := pyStrip pair
        match pySplit p "=" with
        | k :: rest =>
            if rest ≠ [] then
              assocSet acc (pyStrip k) (pyStrip (pyJoin "=" rest))
            else acc
        | [] => acc)
      []
  else []

/-- `broadcast_state_change` (lines 301–310): the one message handed to
`WebSocketServer.broadcast`. -/
def broadcast_state_change (event_type : String) (data : Json) (now : ℚ) : Json :=
  .obj [("type", .str event_type), ("data", data), ("timestamp", .rat now)]

/-- The per-event dispatch of `syslog_watcher_thread` (lines 549–636): the
elif chain on the captured command.  Returns the cache after the event and
the list of broadcasts performed.  `int()`/`float()` failures are caught by
the inner `try` blocks (`none` results of `pyInt?`/`pyFloat?`). -/
def processEvent (caps : EventCaps) (now : ℚ) (c : StateCache) :
    StateCache × List Json :=
  let args := pyParseArgs caps.args_str
  if caps.command = "SetVolume" ∧ (assocGet args "VolumeValue").isSome then
    match pyInt? ((assocGet args "VolumeValue").getD "") with
    | some vol =>
        (update_zone_state c caps.zone "volume" (.int vol) now,
         [broadcast_state_change "zone_state"
            (.obj [("zone", .str caps.zone), ("volume", .int vol)]) now])
    | none => (c, [])
  else if caps.command = "PowerOn" then
    (update_zone_state c caps.zone "power" (.str "ON") now,
     [broadcast_state_change "zone_state"
        (.obj [("zone", .str caps.zone), ("power", .str "ON")]) now])
  else if caps.command = "PowerOff" then
    (update_zone_state c caps.zone "power" (.str "OFF") now,
     [broadcast_state_change "zone_state"
        (.obj [("zone", .str caps.zone), ("power", .str "OFF")]) now])
  else if caps.command = "MuteOn" then
    (update_zone_state c caps.zone "mute" (.str "ON") now,
     [broadcast_state_change "zone_state"
        (.obj [("zone", .str caps.zone), ("mute", .str "ON")]) now])
  else if caps.command = "MuteOff" then
    (update_zone_state c caps.zone "mute" (.str "OFF") now,
     [broadcast_state_change "zone_state"
        (.obj [("zone", .str caps.zone), ("mute", .str "OFF")]) now])
  else if caps.command = "DimmerSet" ∧ (assocGet args "DimmerLevel").isSome then
    match pyFloat? ((assocGet args "DimmerLevel").getD "") with
    | none => (c, [])
    | some level =>
      let addr := (assocGet args "Address1").getD ""
      if addr ≠ "" then
        match (get_lights c).find? (fun kv => getStrOr kv.2 "address" "" == addr) with
        | some kv =>
            let newData : Dict :=
              [("address", .str addr),
               ("zone", .str (getStrOr kv.2 "zone" "")),
               ("name", .str (getStrOr kv.2 "name" "")),
               ("level", .rat level), ("is_on", .bool (decide (0 < level)))]
            (update_light c kv.1 newData now,
             [broadcast_state_change "light_state"
                (.obj [("address", .str addr), ("level", .rat level),
                       ("is_on", .bool (decide (0 < level)))]) now])
        | none => (c, [])
      else (c, [])
  else (c, [])

/-- Split at the first occurrence of `sep`. -/
def splitFirst (s sep : String) : Option (String × String) :=
  match pySplit s sep with
  | [] => none
  | [_] => none
  | a :: rest => some (a, pyJoin sep rest)

/-- Python `\w` (ASCII portion). -/
def isWordChar (ch : Char) : Bool :=
  ch.isAlphanum || ch == '_'

/-- Model of `re.search` with the event pattern (line 531):
the text after the first `Received service event: `, up to the first
` with arguments: `, must be exactly six `-`-separated nonempty groups with
group 4 all digits and group 6 word characters; the argument capture is the
nonempty lazy match before the following `>`.  No claim depends on the
matcher beyond this shape — processing of a matched line is stated over
arbitrary capture values. -/
def matchServiceEvent (line : String) : Option EventCaps :=
  match splitFirst line "Received service event: " with
  | none => none
  | some (_, rest) =>
    match splitFirst rest " with arguments: " with
    | none => none
    | some (head, argsPart) =>
      match splitFirst argsPart ">" with
      | none => none
      | some (args_str, _) =>
        if args_str = "" then none
        else
          match pySplit head "-" with
          | [z, comp, logical, variant, service, command] =>
              if z ≠ "" ∧ comp ≠ "" ∧ logical ≠ "" ∧ pyIsDigit variant ∧
                 service ≠ "" ∧ command ≠ "" ∧ command.data.all isWordChar then
                some ⟨z, comp, logical, variant, service, command, args_str⟩
              else none
          | _ => none

/-- Process one successfully read syslog line: unmatched lines are skipped. -/
def processLine (s : String) (now : ℚ) (c : StateCache) : StateCache × List Json :=
  match matchServiceEvent s with
  | none => (c, [])
  | some caps => processEvent caps now c

/-- One item of the tailer's input: a successfully read line, or an
exception raised by the read. -/
inductive ReadResult where
  | line (s : String)
  | ioError (msg : String)

structure TailerResult where
  cache : StateCache
  broadcasts : List Json
  logs : List String
  terminated : Bool

/-- The read loop of `syslog_watcher_thread` over a stream of read results.
The entire loop body sits inside the function's single `try/except`; the
handler prints `Syslog watcher error` once and falls off the end of the
function, ending the thread — so an `ioError` stops all further
processing (`terminated = true`).  An exhausted stream models the tailer
blocked waiting for new log data (`terminated = false`). -/
def tailerRun (stream : List ReadResult) (now : ℚ) (c : StateCache) :
    TailerResult :=
  match stream with
  | [] => ⟨c, [], [], false⟩
  | .ioError msg :: _ =>
      ⟨c, [], ["Syslog watcher error: " ++ msg], true⟩
  | .line s :: rest =>
      let r1 := processLine s now c
      let r := tailerRun rest now r1.1
      ⟨r.cache, r1.2 ++ r.broadcasts, r.logs, r.terminated⟩

/-! ## Heap model of StateCache — Python object identity

Used only for the defensive-copy claim: inner dicts are heap cells with
addresses, the cache maps names to addresses.  `update_component` /
`update_light` rebind a name to the caller's object; `update_zone_state`
mutates the inner dict in place through its reference; `dict(...)` in the
getters copies only the top level. -/

abbrev Addr := Nat

structure Heap where
  cells : List (Addr × Dict)
  next : Addr

def Heap.empty : Heap := ⟨[], 0⟩

/-- Dereference an inner-dict object. -/
def heapGet (h : Heap) (a : Addr) : Dict :=
  (assocGet h.cells a).getD []

def heapSet (h : Heap) (a : Addr) (d : Dict) : Heap :=
  ⟨assocSet h.cells a d, h.next⟩

def heapAlloc (h : Heap) (d : Dict) : Addr × Heap :=
  (h.next, ⟨assocSet h.cells h.next d, h.next + 1⟩)

/-- StateCache with inner dicts by reference. -/
structure HCache where
  component_states : List (String × Addr)
  light_levels : List (String × Addr)
  zone_states : List (String × Addr)

def HCache.init : HCache := ⟨[], [], []⟩

/-- `update_component`: rebinds the name to the caller's dict object. -/
def hUpdateComponent (s : HCache) (name : String) (states : Addr) : HCache :=
  { s with component_states := assocSet s.component_states name states }

/-- `update_light`: rebinds the key to the caller's dict object. -/
def hUpdateLight (s : HCache) (key : String) (data : Addr) : HCache :=
  { s with light_levels := assocSet s.light_levels key data }

/-- `update_zone_state`: if the zone is absent a fresh empty dict is
allocated and bound; the inner dict is then mutated in place through its
reference. -/
def hUpdateZoneState (h : Heap) (s : HCache) (zone key : String) (value : Json) :
    Heap × HCache :=
  match assocGet s.zone_states zone with
  | some a => (heapSet h a (assocSet (heapGet h a) key value), s)
  | none =>
      let ah := heapAlloc h []
      (heapSet ah.2 ah.1 (assocSet (heapGet ah.2 ah.1) key value),
       { s with zone_states := assocSet s.zone_states zone ah.1 })

/-- `get_zone_state`: `self.zone_states.get(zone, ...)` returns the live
inner reference when the zone is present, a freshly allocated empty dict
otherwise — no copy is taken. -/
def hGetZoneState (h : Heap) (s : HCache) (zone : String) : Addr × Heap :=
  match assocGet s.zone_states zone with
  | some a => (a, h)
  | none => heapAlloc h []

/-- `get_all_zone_states`: `dict(self.zone_states)` — a fresh top-level dict
carrying the same inner references. -/
def hGetAllZoneStates (s : HCache) : List (String × Addr) :=
  s.zone_states

/-- `get_components`: top-level copy, same inner references. -/
def hGetComponents (s : HCache) : List (String × Addr) :=
  s.component_states

/-- `get_lights`: top-level copy, same inner references. -/
def hGetLights (s : HCache) : List (String × Addr) :=
  s.light_levels

/-! ## Helper lemmas -/

theorem python3Round_eq_of_lt {q : ℚ} {f : ℤ} (hf : ⌊q⌋ = f) (h : q - f < 1/2) :
    python3Round q = f := by
  unfold python3Round
  rw [hf, if_pos h]

theorem floor_le_python3Round (q : ℚ) : ⌊q⌋ ≤ python3Round q := by
  unfold python3Round
  split_ifs <;> omega

theorem python3Round_le_floor_add_one (q : ℚ) : python3Round q ≤ ⌊q⌋ + 1 := by
  unfold python3Round
  split_ifs <;> omega

/-- Round-half-to-even is monotone. -/
theorem python3Round_mono {a b : ℚ} (h : a ≤ b) :
    python3Round a ≤ python3Round b := by
  have hf : ⌊a⌋ ≤ ⌊b⌋ := Int.floor_mono h
  rcases eq_or_lt_of_le hf with heq | hlt
  · unfold python3Round
    rw [← heq]
    split_ifs <;> first | omega | (exfalso; linarith)
  · have h1 := python3Round_le_floor_add_one a
    have h2 := floor_le_python3Round b
    omega

theorem and127_small {n : Nat} (h : n < 128) : n &&& 127 = n := by
  interval_cases n <;> decide

theorem and128_small {n : Nat} (h : n < 128) : n &&& 128 = 0 := by
  interval_cases n <;> decide

theorem opcode_roundtrip {op : Nat} (h : op < 16) : (128 ||| op) &&& 15 = op := by
  interval_cases op <;> decide

theorem unpack64_pack64 (L : Nat) (h : L < 18446744073709551616) :
    (((((((L / 72057594037927936 % 256) * 256 + L / 281474976710656 % 256) * 256
      + L / 1099511627776 % 256) * 256 + L / 4294967296 % 256) * 256
      + L / 16777216 % 256) * 256 + L / 65536 % 256) * 256
      + L / 256 % 256) * 256 + L % 256 = L := by
  omega

/-- Frame round-trip for every payload shorter than 2^64 (the full range of
the 64-bit length encoding). -/
theorem handleFrame_sendFrame (op : Nat) (hop : op < 16) (p : List Nat)
    (hlen : p.length < 2 ^ 64) :
    handleFrame (sendFrame op p) = some (op, p) := by
  have hopc := opcode_roundtrip hop
  by_cases h1 : p.length < 126
  · have hm : (p.length &&& 128) = 0 := and128_small (by omega)
    have hl : (p.length &&& 127) = p.length := and127_small (by omega)
    simp only [sendFrame, if_pos h1, handleFrame, hm, hl, hopc]
    rw [if_neg (by omega), if_neg (by omega)]
    simp [List.take_length]
  · by_cases h2 : p.length < 65536
    · have e1 : (126 : Nat) &&& 127 = 126 := by decide
      have e2 : (126 : Nat) &&& 128 = 0 := by decide
      have hsum : p.length / 256 * 256 + p.length % 256 = p.length := by omega
      simp only [sendFrame, if_neg h1, if_pos h2, handleFrame, e1, e2, hopc,
        if_pos rfl, hsum]
      simp [List.take_length]
    · have e1 : (127 : Nat) &&& 127 = 127 := by decide
      have e2 : (127 : Nat) &&& 128 = 0 := by decide
      have e3 : ¬((127 : Nat) = 126) := by decide
      simp only [sendFrame, if_neg h1, if_neg h2, handleFrame, pack64, e1, e2,
        hopc, if_neg e3, if_pos rfl, List.cons_append]
      have hsum : (((((((p.length / 256 ^ 7 % 256) * 256 + p.length / 256 ^ 6 % 256) * 256
          + p.length / 256 ^ 5 % 256) * 256 + p.length / 256 ^ 4 % 256) * 256
          + p.length / 256 ^ 3 % 256) * 256 + p.length / 256 ^ 2 % 256) * 256
          + p.length / 256 % 256) * 256 + p.length % 256 = p.length := by
        have h64 : p.length < 18446744073709551616 := by
          calc p.length < 2 ^ 64 := hlen
          _ = 18446744073709551616 := by norm_num
        calc (((((((p.length / 256 ^ 7 % 256) * 256 + p.length / 256 ^ 6 % 256) * 256
            + p.length / 256 ^ 5 % 256) * 256 + p.length / 256 ^ 4 % 256) * 256
            + p.length / 256 ^ 3 % 256) * 256 + p.length / 256 ^ 2 % 256) * 256
            + p.length / 256 % 256) * 256 + p.length % 256
            = (((((((p.length / 72057594037927936 % 256) * 256
            + p.length / 281474976710656 % 256) * 256
            + p.length / 1099511627776 % 256) * 256 + p.length / 4294967296 % 256) * 256
            + p.length / 16777216 % 256) * 256 + p.length / 65536 % 256) * 256
            + p.length / 256 % 256) * 256 + p.length % 256 := by norm_num
          _ = p.length := unpack64_pack64 p.length h64
      simp only [hsum]
      simp [List.take_length]

theorem assocGet_assocSet_self {κ α : Type} [DecidableEq κ]
    (l : List (κ × α)) (k : κ) (v : α) :
    assocGet (assocSet l k v) k = some v := by
  induction l with
  | nil => simp [assocGet, assocSet]
  | cons kv rest ih =>
      obtain ⟨k', v'⟩ := kv
      by_cases h : k' = k <;> simp [assocGet, assocSet, h, ih]

/-! ## Claim theorems -/

/-- C6: For every opcode and every payload whose length is 0, 125, 126, or
65536, encoding a frame with `WebSocketServer._send_frame` and then decoding
it with the frame-header/extended-length/payload logic of the client read
loop yields back the same opcode and the same payload (round-trip across the
7-bit, 16-bit, and 64-bit length encodings). -/
theorem claim_C6_frame_roundtrip (op : Nat) (p : List Nat) (hop : op < 16)
    (hlen : p.length = 0 ∨ p.length = 125 ∨ p.length = 126 ∨ p.length = 65536) :
    handleFrame (sendFrame op p) = some (op, p) := by
  apply handleFrame_sendFrame op hop p
  rcases hlen with h | h | h | h <;> rw [h] <;> norm_num

/-- Witness for C6 at opcode 1 and a 126-byte payload. -/
theorem claim_C6_frame_roundtrip_witness :
    handleFrame (sendFrame 1 (List.replicate 126 97)) =
      some (1, List.replicate 126 97) :=
  claim_C6_frame_roundtrip 1 (List.replicate 126 97) (by norm_num) (by simp)

/-- C8: The volume conversion from device values to the 0.0–1.0 level maps,
on the percent scale, 0 to 0.0 and 100 to 1.0, and on the dB scale, −80 to
0.0 and 0 to 1.0; any device value outside the scale's range is clamped so
the result always lies in [0.0, 1.0]; the write direction
(`set_volume_level`) maps 0.0 back to 0 (percent) or −80 (dB) and 1.0 back
to 100 (percent) or 0 (dB). -/
theorem claim_C8_volume_scale_conversion :
    volume_from_device .percent 0 = 0 ∧ volume_from_device .percent 100 = 1 ∧
    volume_from_device .dB (-80) = 0 ∧ volume_from_device .dB 0 = 1 ∧
    (∀ (scale : VolumeScale) (v : Int),
      0 ≤ volume_from_device scale v ∧ volume_from_device scale v ≤ 1) ∧
    set_volume_savant .percent 0 = 0 ∧ set_volume_savant .percent 1 = 100 ∧
    set_volume_savant .dB 0 = -80 ∧ set_volume_savant .dB 1 = 0 := by
  refine ⟨?_, ?_, ?_, ?_, ?_, ?_, ?_, ?_, ?_⟩
  · norm_num [volume_from_device, min_def, max_def]
  · norm_num [volume_from_device, min_def, max_def]
  · norm_num [volume_from_device, min_def, max_def]
  · norm_num [volume_from_device, min_def, max_def]
  · intro scale v
    cases scale <;>
      exact ⟨le_max_left _ _, max_le (by norm_num) (min_le_left _ _)⟩
  · norm_num [set_volume_savant, pyTrunc]
  · norm_num [set_volume_savant, pyTrunc]
  · norm_num [set_volume_savant, pyTrunc]
  · norm_num [set_volume_savant, pyTrunc]

/-- C9: The dimmer conversion from Home-Assistant brightness (0–255) to the
device level (0–100) used by `turn_on` maps 0 to 0, 128 to 50, and 255 to
100 via rounding, and the inverse mapping from device level back to
brightness is monotonic.  (The inverse has no code counterpart; it is
`brightness_of_level`, modelled from the spec.) -/
theorem claim_C9_dimmer_conversion :
    dimmer_level_of_brightness 0 = 0 ∧ dimmer_level_of_brightness 128 = 50 ∧
    dimmer_level_of_brightness 255 = 100 ∧
    ∀ l1 l2 : ℕ, l1 ≤ l2 → brightness_of_level l1 ≤ brightness_of_level l2 := by
  refine ⟨?_, ?_, ?_, ?_⟩
  · have h1 : ((0:ℕ):ℚ) * 100 / 255 = ((0 : ℤ) : ℚ) / ((1 : ℕ) : ℚ) := by norm_num
    unfold dimmer_level_of_brightness
    rw [h1]
    exact python3Round_eq_of_lt
      (by rw [Rat.floor_intCast_div_natCast]; decide) (by push_cast; norm_num)
  · have h1 : ((128:ℕ):ℚ) * 100 / 255 = ((2560 : ℤ) : ℚ) / ((51 : ℕ) : ℚ) := by
      norm_num
    unfold dimmer_level_of_brightness
    rw [h1]
    exact python3Round_eq_of_lt
      (by rw [Rat.floor_intCast_div_natCast]; decide) (by push_cast; norm_num)
  · have h1 : ((255:ℕ):ℚ) * 100 / 255 = ((100 : ℤ) : ℚ) / ((1 : ℕ) : ℚ) := by
      norm_num
    unfold dimmer_level_of_brightness
    rw [h1]
    exact python3Round_eq_of_lt
      (by rw [Rat.floor_intCast_div_natCast]; decide) (by push_cast; norm_num)
  · intro l1 l2 h
    unfold brightness_of_level
    apply python3Round_mono
    have hc : (l1 : ℚ) ≤ (l2 : ℚ) := by exact_mod_cast h
    gcongr

/-- Witness for C9's monotonicity clause at 10 ≤ 20. -/
theorem claim_C9_dimmer_conversion_witness :
    brightness_of_level 10 ≤ brightness_of_level 20 :=
  claim_C9_dimmer_conversion.2.2.2 10 20 (by norm_num)

/-- C5: For every POST /command request whose body is valid JSON but lacks
the `service` field (or any of `zone`, `component`, `logicalComponent`,
`command`), the handler responds HTTP 400 and sends no UDP datagram; for a
body with all five fields present (with non-empty values, which is what the
handler's truthiness test checks — cf. C10 for empty values), the rendered
envelope is handed to `sendto` and the response is 200 with
`status: "ok"`, or 502 if the UDP send fails. -/
theorem claim_C5_command_validation :
    (∀ (cmd : CommandBody) (send : Except String Unit),
      (assocGet cmd.fields "zone" = none ∨ assocGet cmd.fields "component" = none ∨
       assocGet cmd.fields "logicalComponent" = none ∨
       assocGet cmd.fields "service" = none ∨ assocGet cmd.fields "command" = none) →
      handle_command (some cmd) send = (⟨400, .str "Missing required fields"⟩, none)) ∧
    (∀ (cmd : CommandBody) (vz vc vl vs vcmd : String),
      assocGet cmd.fields "zone" = some vz → vz ≠ "" →
      assocGet cmd.fields "component" = some vc → vc ≠ "" →
      assocGet cmd.fields "logicalComponent" = some vl → vl ≠ "" →
      assocGet cmd.fields "service" = some vs → vs ≠ "" →
      assocGet cmd.fields "command" = some vcmd → vcmd ≠ "" →
      handle_command (some cmd) (.ok ()) =
        (⟨200, .obj [("status", .str "ok")]⟩,
         some (SOAP_render vz vc vl vs
           ((assocGet cmd.fields "serviceVariantID").getD "1") vcmd
           (args_xml_of cmd.arguments))) ∧
      ∀ e, handle_command (some cmd) (.error e) =
        (⟨502, .str ("Send error: " ++ e)⟩,
         some (SOAP_render vz vc vl vs
           ((assocGet cmd.fields "serviceVariantID").getD "1") vcmd
           (args_xml_of cmd.arguments)))) := by
  constructor
  · intro cmd send h
    rcases h with h | h | h | h | h <;> simp [handle_command, h]
  · intro cmd vz vc vl vs vcmd hz hz' hc hc' hl hl' hs hs' hcmd hcmd'
    constructor
    · simp [handle_command, hz, hc, hl, hs, hcmd, hz', hc', hl', hs', hcmd']
    · intro e
      simp [handle_command, hz, hc, hl, hs, hcmd, hz', hc', hl', hs', hcmd']

/-- Witness for C5: a body lacking `service` gets 400 and no datagram; a
complete body gets 200 and the rendered envelope. -/
theorem claim_C5_command_validation_witness :
    handle_command (some ⟨[("zone", "Living Room")], []⟩) (.ok ()) =
      (⟨400, .str "Missing required fields"⟩, none) ∧
    handle_command (some ⟨[("zone", "Living Room"), ("component", "Lutron"),
        ("logicalComponent", "Lighting_controller"), ("service", "SVC_ENV_LIGHTING"),
        ("serviceVariantID", "1"), ("command", "DimmerSet")],
        [("DimmerLevel", "50")]⟩) (.ok ()) =
      (⟨200, .obj [("status", .str "ok")]⟩,
       some (SOAP_render "Living Room" "Lutron" "Lighting_controller"
         "SVC_ENV_LIGHTING" "1" "DimmerSet" (args_xml_of [("DimmerLevel", "50")]))) := by
  constructor
  · exact claim_C5_command_validation.1 _ _ (by right; right; right; left; rfl)
  · exact (claim_C5_command_validation.2
      ⟨[("zone", "Living Room"), ("component", "Lutron"),
        ("logicalComponent", "Lighting_controller"), ("service", "SVC_ENV_LIGHTING"),
        ("serviceVariantID", "1"), ("command", "DimmerSet")],
        [("DimmerLevel", "50")]⟩ "Living Room" "Lutron"
      "Lighting_controller" "SVC_ENV_LIGHTING" "DimmerSet"
      rfl (by decide) rfl (by decide) rfl (by decide) rfl (by decide)
      rfl (by decide)).1

/-- C10: POST /command does not require or validate `serviceVariantID`: a
valid-JSON body with non-empty `zone`, `component`, `logicalComponent`,
`service` and `command` but no `serviceVariantID` key is accepted (not
rejected with 400) and the SOAP envelope is rendered with the default
variant string "1"; a required field present but bound to an empty string
is treated exactly like a missing field and yields 400. -/
theorem claim_C10_variant_default :
    (∀ (cmd : CommandBody) (send : Except String Unit) (vz vc vl vs vcmd : String),
      assocGet cmd.fields "serviceVariantID" = none →
      assocGet cmd.fields "zone" = some vz → vz ≠ "" →
      assocGet cmd.fields "component" = some vc → vc ≠ "" →
      assocGet cmd.fields "logicalComponent" = some vl → vl ≠ "" →
      assocGet cmd.fields "service" = some vs → vs ≠ "" →
      assocGet cmd.fields "command" = some vcmd → vcmd ≠ "" →
      (handle_command (some cmd) send).1.status ≠ 400 ∧
      (handle_command (some cmd) send).2 =
        some (SOAP_render vz vc vl vs "1" vcmd (args_xml_of cmd.arguments))) ∧
    (∀ (cmd : CommandBody) (send : Except String Unit),
      (assocGet cmd.fields "zone" = some "" ∨
       assocGet cmd.fields "component" = some "" ∨
       assocGet cmd.fields "logicalComponent" = some "" ∨
       assocGet cmd.fields "service" = some "" ∨
       assocGet cmd.fields "command" = some "") →
      handle_command (some cmd) send = (⟨400, .str "Missing required fields"⟩, none)) := by
  constructor
  · intro cmd send vz vc vl vs vcmd hv hz hz' hc hc' hl hl' hs hs' hcmd hcmd'
    cases send <;>
      exact ⟨by simp [handle_command, hv, hz, hc, hl, hs, hcmd, hz', hc', hl', hs', hcmd'],
             by simp [handle_command, hv, hz, hc, hl, hs, hcmd, hz', hc', hl', hs', hcmd']⟩
  · intro cmd send h
    rcases h with h | h | h | h | h <;> simp [handle_command, h]

/-- Witness for C10: a body without `serviceVariantID` is accepted with
variant "1"; a body whose `service` is the empty string gets 400. -/
theorem claim_C10_variant_default_witness :
    (handle_command (some ⟨[("zone", "Kitchen"), ("component", "AudioSwitch"),
        ("logicalComponent", "AV_switch_4"), ("service", "SVC_AV_GENERALAUDIO"),
        ("command", "SetVolume")], [("VolumeValue", "45")]⟩) (.ok ())).1.status ≠ 400 ∧
    (handle_command (some ⟨[("zone", "Kitchen"), ("component", "AudioSwitch"),
        ("logicalComponent", "AV_switch_4"), ("service", "SVC_AV_GENERALAUDIO"),
        ("command", "SetVolume")], [("VolumeValue", "45")]⟩) (.ok ())).2 =
      some (SOAP_render "Kitchen" "AudioSwitch" "AV_switch_4" "SVC_AV_GENERALAUDIO"
        "1" "SetVolume" (args_xml_of [("VolumeValue", "45")])) ∧
    handle_command (some ⟨[("zone", "Kitchen"), ("component", "AudioSwitch"),
        ("logicalComponent", "AV_switch_4"), ("service", ""),
        ("command", "SetVolume")], []⟩) (.ok ()) =
      (⟨400, .str "Missing required fields"⟩, none) := by
  refine ⟨?_, ?_, ?_⟩
  · exact (claim_C10_variant_default.1
      ⟨[("zone", "Kitchen"), ("component", "AudioSwitch"),
        ("logicalComponent", "AV_switch_4"), ("service", "SVC_AV_GENERALAUDIO"),
        ("command", "SetVolume")], [("VolumeValue", "45")]⟩ (.ok ())
      "Kitchen" "AudioSwitch" "AV_switch_4"
      "SVC_AV_GENERALAUDIO" "SetVolume" rfl rfl (by decide) rfl (by decide)
      rfl (by decide) rfl (by decide) rfl (by decide)).1
  · exact (claim_C10_variant_default.1
      ⟨[("zone", "Kitchen"), ("component", "AudioSwitch"),
        ("logicalComponent", "AV_switch_4"), ("service", "SVC_AV_GENERALAUDIO"),
        ("command", "SetVolume")], [("VolumeValue", "45")]⟩ (.ok ())
      "Kitchen" "AudioSwitch" "AV_switch_4"
      "SVC_AV_GENERALAUDIO" "SetVolume" rfl rfl (by decide) rfl (by decide)
      rfl (by decide) rfl (by decide) rfl (by decide)).2
  · exact claim_C10_variant_default.2 _ _ (by right; right; right; left; rfl)

/-- C4 counterexample: with the database unreachable, `handle_zones` and
`handle_lights` respond HTTP 500 carrying the error text — not a 200 with
an empty collection as the claim states. -/
theorem claim_C4_db_error_counterexample :
    (handle_zones (.error "unable to open database file") StateCache.init).2.status
        = 500 ∧
    (handle_zones (.error "unable to open database file") StateCache.init).2 ≠
      ⟨200, .obj [("zones", .obj [])]⟩ ∧
    (handle_lights (.error "unable to open database file") StateCache.init).2.status
        = 500 ∧
    (handle_lights (.error "unable to open database file") StateCache.init).2 ≠
      ⟨200, .obj [("lights", .arr [])]⟩ := by
  refine ⟨rfl, ?_, rfl, ?_⟩
  · intro h
    exact absurd (congrArg Response.status h) (by decide)
  · intro h
    exact absurd (congrArg Response.status h) (by decide)

/-- C4 (amended): whenever the database query raises, `handle_zones` /
`handle_lights` catch the exception and respond HTTP 500 with the error
text, leaving the cache untouched (no crash); the empty-collection
degradation happens one layer up, in the Home-Assistant client
(`SavantClient.get_zones` / `get_lights` return an empty dict/list on any
request failure). -/
theorem claim_C4_db_error_amended :
    ∀ (msg : String) (c : StateCache),
      handle_zones (.error msg) c = (c, ⟨500, .str msg⟩) ∧
      handle_lights (.error msg) c = (c, ⟨500, .str msg⟩) ∧
      client_get_zones (.error msg) = .obj [] ∧
      client_get_lights (.error msg) = .arr [] := by
  intro msg c
  exact ⟨rfl, rfl, rfl, rfl⟩

/-- C2 counterexample: a GET /lights/status request is not a pure snapshot
read — it writes every queried light's status dict into the StateCache
(`update_light` at line 1076). -/
theorem claim_C2_snapshot_counterexample :
    (handle_lights_status (.ok [⟨some "14", "Kitchen", "Main"⟩])
        [("14", (75 : ℚ))] 0 StateCache.init).1.light_levels =
      [("kitchen_main", lightStatusData "14" "Kitchen" "Main" 75)] ∧
    (handle_lights_status (.ok [⟨some "14", "Kitchen", "Main"⟩])
        [("14", (75 : ℚ))] 0 StateCache.init).1 ≠ StateCache.init := by
  refine ⟨rfl, ?_⟩
  intro h
  have h2 := congrArg StateCache.light_levels h
  exact List.cons_ne_nil _ _ h2

/-- C2 (amended): GET /zones, /zones/state and /lights leave the StateCache
exactly as it was; GET /state does so whenever the component cache is
nonempty (an empty one is backfilled from the status files); GET
/lights/status however writes each queried light's level into the cache. -/
theorem claim_C2_snapshot_reads_amended :
    ∀ (dbz : Except String ZonesDb) (dbl : Except String LightsDb)
      (files : List PlistFile) (now : ℚ) (c : StateCache),
      (handle_zones dbz c).1 = c ∧ (handle_zones_state c).1 = c ∧
      (handle_lights dbl c).1 = c ∧
      (¬c.component_states.isEmpty → (handle_state files now c).1 = c) := by
  intro dbz dbl files now c
  refine ⟨?_, rfl, ?_, ?_⟩
  · cases dbz <;> rfl
  · cases dbl <;> rfl
  · intro h
    simp only [handle_state, get_components]
    rw [if_neg h]

/-- Witness for C2 (amended) at concrete inputs, including a nonempty
component cache for the /state clause. -/
theorem claim_C2_snapshot_reads_amended_witness :
    (handle_zones (.error "db") StateCache.init).1 = StateCache.init ∧
    (handle_state [] 0
        (update_component StateCache.init "amp" [("Power", .str "ON")] 0)).1 =
      update_component StateCache.init "amp" [("Power", .str "ON")] 0 := by
  refine ⟨(claim_C2_snapshot_reads_amended (.error "db") (.error "db") [] 0
    StateCache.init).1, ?_⟩
  exact (claim_C2_snapshot_reads_amended (.error "db") (.error "db") [] 0
    (update_component StateCache.init "amp" [("Power", .str "ON")] 0)).2.2.2
    (by decide)

/-- C7: For every log line that matches the service-event pattern with
command `SetVolume` and an argument block containing `VolumeValue = 45`,
processing that line sets the tailer's ZoneState entry for the captured
zone to volume 45 and performs exactly one broadcast, of type `zone_state`,
whose data carries that zone and volume 45.  (Matched lines are stated
through their capture groups, which range over all values the pattern can
produce.) -/
theorem claim_C7_setvolume_event :
    ∀ (zone comp logical variant service args_str : String) (now : ℚ)
      (c : StateCache),
      assocGet (pyParseArgs args_str) "VolumeValue" = some "45" →
      processEvent ⟨zone, comp, logical, variant, service, "SetVolume", args_str⟩
          now c =
        (update_zone_state c zone "volume" (.int 45) now,
         [broadcast_state_change "zone_state"
            (.obj [("zone", .str zone), ("volume", .int 45)]) now]) := by
  intro zone comp logical variant service args_str now c h
  have hint : pyInt? "45" = some 45 := by decide
  simp [processEvent, h, hint]

/-- Witness for C7 on a concrete argument block. -/
theorem claim_C7_setvolume_event_witness :
    processEvent ⟨"Living Room", "AudioSwitch", "AV_switch_2", "1",
        "SVC_AV_GENERALAUDIO", "SetVolume", "\x7bVolumeValue = 45;\x7d"⟩ 0
        StateCache.init =
      (update_zone_state StateCache.init "Living Room" "volume" (.int 45) 0,
       [broadcast_state_change "zone_state"
          (.obj [("zone", .str "Living Room"), ("volume", .int 45)]) 0]) :=
  claim_C7_setvolume_event "Living Room" "AudioSwitch" "AV_switch_2" "1"
    "SVC_AV_GENERALAUDIO" "\x7bVolumeValue = 45;\x7d" 0 StateCache.init (by decide)

set_option maxRecDepth 100000 in
/-- C3 counterexample: a read error is caught by the watcher's single
function-level handler, which logs once and ends the thread — the line
arriving after the error is never processed, although processing it alone
would have updated the cache. -/
theorem claim_C3_tailer_error_counterexample :
    (tailerRun [.ioError "read failed",
        .line "Jan  1 00:00:00 host Received service event: Kitchen-AudioSwitch-AV_switch_2-1-SVC_AV_GENERALAUDIO-SetVolume with arguments: \x7bVolumeValue = 45;\x7d>"]
        0 StateCache.init).terminated = true ∧
    (tailerRun [.ioError "read failed",
        .line "Jan  1 00:00:00 host Received service event: Kitchen-AudioSwitch-AV_switch_2-1-SVC_AV_GENERALAUDIO-SetVolume with arguments: \x7bVolumeValue = 45;\x7d>"]
        0 StateCache.init).cache = StateCache.init ∧
    (tailerRun [.line "Jan  1 00:00:00 host Received service event: Kitchen-AudioSwitch-AV_switch_2-1-SVC_AV_GENERALAUDIO-SetVolume with arguments: \x7bVolumeValue = 45;\x7d>"]
        0 StateCache.init).cache ≠ StateCache.init := by
  refine ⟨rfl, rfl, ?_⟩
  intro h
  have h2 := congrArg StateCache.zone_states h
  exact List.cons_ne_nil _ _ h2

/-- C3 (amended): per-line parse problems never terminate the tailer — on an
error-free stream the loop processes every line, never terminates and logs
nothing; but an exception raised by the read itself is caught by the
function-level handler, logged exactly once, and terminates the tailer:
everything after the error is left unprocessed. -/
theorem claim_C3_tailer_errors_amended :
    (∀ (lines : List String) (now : ℚ) (c : StateCache),
       (tailerRun (lines.map .line) now c).terminated = false ∧
       (tailerRun (lines.map .line) now c).logs = []) ∧
    (∀ (pre : List String) (msg : String) (post : List ReadResult) (now : ℚ)
       (c : StateCache),
       (tailerRun (pre.map .line ++ .ioError msg :: post) now c).terminated = true ∧
       (tailerRun (pre.map .line ++ .ioError msg :: post) now c).logs =
         ["Syslog watcher error: " ++ msg] ∧
       (tailerRun (pre.map .line ++ .ioError msg :: post) now c).cache =
         (tailerRun (pre.map .line) now c).cache ∧
       (tailerRun (pre.map .line ++ .ioError msg :: post) now c).broadcasts =
         (tailerRun (pre.map .line) now c).broadcasts) := by
  constructor
  · intro lines now c
    induction lines generalizing c with
    | nil => exact ⟨rfl, rfl⟩
    | cons s rest ih =>
        simp only [List.map_cons, tailerRun]
        exact ⟨(ih _).1, (ih _).2⟩
  · intro pre msg post now c
    induction pre generalizing c with
    | nil => exact ⟨rfl, rfl, rfl, rfl⟩
    | cons s rest ih =>
        simp only [List.map_cons, List.cons_append, tailerRun]
        refine ⟨(ih _).1, (ih _).2.1, (ih _).2.2.1, ?_⟩
        exact congrArg (fun l => (processLine s now c).2 ++ l)
          ((ih (processLine s now c).1).2.2.2)

/-- C1 counterexample: `get_zone_state` returns the cache's live inner dict,
not a defensive copy — a later `update_zone_state` for the same zone
changes the mapping previously returned.  Starting from the empty cache,
`update_zone_state "Kitchen" "power" "ON"` binds the inner dict at address
0; `get_zone_state "Kitchen"` returns address 0; a later
`update_zone_state "Kitchen" "volume" 45` changes the contents at address
0, so the returned mapping now differs from what it showed when returned. -/
theorem claim_C1_defensive_copy_counterexample :
    (hGetZoneState
        (hUpdateZoneState Heap.empty HCache.init "Kitchen" "power" (.str "ON")).1
        (hUpdateZoneState Heap.empty HCache.init "Kitchen" "power" (.str "ON")).2
        "Kitchen").1 = 0 ∧
    heapGet
      (hGetZoneState
        (hUpdateZoneState Heap.empty HCache.init "Kitchen" "power" (.str "ON")).1
        (hUpdateZoneState Heap.empty HCache.init "Kitchen" "power" (.str "ON")).2
        "Kitchen").2 0 = [("power", Json.str "ON")] ∧
    heapGet
      (hUpdateZoneState
        (hGetZoneState
          (hUpdateZoneState Heap.empty HCache.init "Kitchen" "power" (.str "ON")).1
          (hUpdateZoneState Heap.empty HCache.init "Kitchen" "power" (.str "ON")).2
          "Kitchen").2
        (hUpdateZoneState Heap.empty HCache.init "Kitchen" "power" (.str "ON")).2
        "Kitchen" "volume" (.int 45)).1 0 =
      [("power", Json.str "ON"), ("volume", Json.int 45)] ∧
    ([("power", Json.str "ON"), ("volume", Json.int 45)] : Dict) ≠
      [("power", Json.str "ON")] := by
  refine ⟨rfl, rfl, rfl, ?_⟩
  intro h
  simpa using congrArg List.length h

/-- C1 (amended): the getters copy at most the top level.  For a zone
already in the cache, `get_zone_state` returns the cache's own inner dict
reference (and `get_all_zone_states` carries the same reference);
`update_zone_state` mutates the inner dict in place through that reference,
so a mapping returned earlier changes; conversely a caller mutating the
dict behind the returned reference changes what the cache holds.
`update_component` / `update_light` only rebind a top-level key to the
caller's object and leave the heap (and hence every previously returned
mapping) untouched. -/
theorem claim_C1_defensive_copy_amended :
    ∀ (h : Heap) (s : HCache) (zone key : String) (v : Json) (a : Addr) (d : Dict),
      assocGet s.zone_states zone = some a →
      hGetZoneState h s zone = (a, h) ∧
      assocGet (hGetAllZoneStates s) zone = some a ∧
      (hUpdateZoneState h s zone key v).2 = s ∧
      heapGet (hUpdateZoneState h s zone key v).1 a =
        assocSet (heapGet h a) key v ∧
      heapGet (heapSet h a d) a = d := by
  intro h s zone key v a d ha
  refine ⟨?_, ha, ?_, ?_, ?_⟩
  · simp [hGetZoneState, ha]
  · simp [hUpdateZoneState, ha]
  · simp [hUpdateZoneState, ha, heapGet, heapSet, assocGet_assocSet_self]
  · simp [heapGet, heapSet, assocGet_assocSet_self]

/-- Witness for C1 (amended) on a one-zone cache. -/
theorem claim_C1_defensive_copy_amended_witness :
    hGetZoneState ⟨[(0, [("power", Json.str "ON")])], 1⟩ ⟨[], [], [("Kitchen", 0)]⟩
        "Kitchen" = (0, ⟨[(0, [("power", Json.str "ON")])], 1⟩) ∧
    assocGet (hGetAllZoneStates ⟨[], [], [("Kitchen", 0)]⟩) "Kitchen" = some 0 ∧
    (hUpdateZoneState ⟨[(0, [("power", Json.str "ON")])], 1⟩
        ⟨[], [], [("Kitchen", 0)]⟩ "Kitchen" "volume" (.int 45)).2 =
      ⟨[], [], [("Kitchen", 0)]⟩ ∧
    heapGet (hUpdateZoneState ⟨[(0, [("power", Json.str "ON")])], 1⟩
        ⟨[], [], [("Kitchen", 0)]⟩ "Kitchen" "volume" (.int 45)).1 0 =
      assocSet (heapGet ⟨[(0, [("power", Json.str "ON")])], 1⟩ 0) "volume" (.int 45) ∧
    heapGet (heapSet ⟨[(0, [("power", Json.str "ON")])], 1⟩ 0 []) 0 = [] :=
  claim_C1_defensive_copy_amended ⟨[(0, [("power", Json.str "ON")])], 1⟩
    ⟨[], [], [("Kitchen", 0)]⟩ "Kitchen" "volume" (.int 45) 0 [] rfl

end Savant
